import Mathlib

/-!
Verification of the JT/T 808 codec utilities in the `tools/dc600` scripts.

Shallow embedding conventions:
* Python `bytes` values are `List Nat` (each element a byte value 0..255).
* Decimal-digit strings (device ids, BCD inputs) are `List Nat` of digit
  values; `str.zfill` becomes prepending zero digits.
* Python functions that can raise are embedded with `Option`/`Except`, the
  error constructor naming the Python exception.
* Mutable counters are embedded as explicit state passing: a step function
  `state -> value × state`.
-/

namespace DC600

/-- Python slice `l[a:b]` (with `0 ≤ a ≤ b`, clamped at the ends). -/
def pySlice (l : List Nat) (a b : Nat) : List Nat :=
  (l.drop a).take (b - a)

/-- `struct.pack('>H', n)` for `n < 2^16`: big-endian 2-byte encoding. -/
def pack16 (n : Nat) : List Nat := [n / 256, n % 256]

/-- `struct.pack('>I', n)` for `n < 2^32`: big-endian 4-byte encoding. -/
def pack32 (n : Nat) : List Nat :=
  [n / 2 ^ 24 % 256, n / 2 ^ 16 % 256, n / 2 ^ 8 % 256, n % 256]

/-- `struct.unpack('>H', s)[0]` on a 2-byte slice. -/
def unpack16 : List Nat → Nat
  | [a, b] => 256 * a + b
  | _ => 0

/-- `JT808Protocol.calculate_checksum` (dc600_device_simulator.py:150-156):
XOR-reduction of all bytes, starting from 0. -/
def calculate_checksum (data : List Nat) : Nat :=
  data.foldl (· ^^^ ·) 0

/-- `JT808Protocol.escape_data` (dc600_device_simulator.py:158-169), same code
as module-level `escape_data` in dc600multimedia.py:107-117 and
`JT808Message.escape` in test_dc600_protocol.py:84-95: `0x7E ↦ 0x7D 0x02`,
`0x7D ↦ 0x7D 0x01`, all other bytes unchanged. -/
def escape_data : List Nat → List Nat
  | [] => []
  | b :: rest =>
    (if b = 0x7E then [0x7D, 0x02]
     else if b = 0x7D then [0x7D, 0x01]
     else [b]) ++ escape_data rest

/-- `JT808Protocol.unescape_data` (dc600_device_simulator.py:171-190), same
code as `unescape_data` in dc600multimedia.py:120-138: `0x7D 0x02 ↦ 0x7E`,
`0x7D 0x01 ↦ 0x7D`, an `0x7D` followed by any other byte (or at the end) is
passed through as a literal, any other byte is copied. -/
def unescape_data : List Nat → List Nat
  | [] => []
  | [x] => [x]
  | x :: y :: rest =>
    if x = 0x7D then
      if y = 0x02 then 0x7E :: unescape_data rest
      else if y = 0x01 then 0x7D :: unescape_data rest
      else x :: unescape_data (y :: rest)
    else x :: unescape_data (y :: rest)

/-- `str.zfill` on a digit string of width `n`: left-pad with zero digits. -/
def zfill (s : List Nat) (n : Nat) : List Nat :=
  List.replicate (n - s.length) 0 ++ s

/-- The digit-pair packing loop of `JT808Protocol.encode_bcd`
(dc600_device_simulator.py:295-307): `range(0, len, 2)` with
`low = s[i+1] if i+1 < len else 0`. -/
def packPairs : List Nat → List Nat
  | [] => []
  | [h] => [h <<< 4]
  | h :: l :: rest => ((h <<< 4) ||| l) :: packPairs rest

/-- `JT808Protocol.encode_bcd(number_str, total_digits)`
(dc600_device_simulator.py:295-307): zero-fill to `total_digits` digits, then
pack digit pairs (an odd trailing digit gets a zero low nibble). -/
def encode_bcd (s : List Nat) (total_digits : Nat) : List Nat :=
  packPairs (zfill s total_digits)

/-- The digit-pair packing loop of the *other* `JT808Protocol.encode_bcd`
(dc600_simulator.py:306-316): `range(0, len, 2)` reading `value[i+1]`
unconditionally, so an odd-length input raises `IndexError` (embedded as
`none`). -/
def packPairsStrict : List Nat → Option (List Nat)
  | [] => some []
  | [_] => none
  | h :: l :: rest => (packPairsStrict rest).map (((h <<< 4) ||| l) :: ·)

/-- `JT808Protocol.encode_bcd(value, length)` (dc600_simulator.py:306-316):
zero-fill to `2*length` digits and pack pairs, raising `IndexError` when an
over-long input has odd length. -/
def encode_bcd_sim (s : List Nat) (length : Nat) : Option (List Nat) :=
  packPairsStrict (zfill s (2 * length))

/-- `JT808Protocol.decode_bcd` (dc600_device_simulator.py:309-317, identical
in dc600_simulator.py:318-326): each byte contributes
`f"{high}{low}"` where `high`/`low` are the masked nibbles; the f-string
renders each nibble with Python `str(int)`, i.e. `Nat.repr`. -/
def decode_bcd : List Nat → String
  | [] => ""
  | b :: rest =>
    (Nat.repr ((b >>> 4) &&& 0x0F) ++ Nat.repr (b &&& 0x0F)) ++ decode_bcd rest

/-- `JT808Protocol.get_next_sequence` (dc600_device_simulator.py:143-148) as a
state step: return the current counter, then increment it modulo `0x10000`. -/
def get_next_sequence (s : Nat) : Nat × Nat :=
  (s, (s + 1) % 0x10000)

/-- `DC600Message.get_next_sequence` (dc600multimedia.py:155-158) as a state
step: increment modulo `0xFFFF` first, then return the new value. -/
def mm_get_next_sequence (s : Nat) : Nat × Nat :=
  ((s + 1) % 0xFFFF, (s + 1) % 0xFFFF)

/-- Counter state after `n` calls to `JT808Protocol.get_next_sequence`,
starting from state `s0`. -/
def devSeqState (s0 : Nat) : Nat → Nat
  | 0 => s0
  | n + 1 => (get_next_sequence (devSeqState s0 n)).2

/-- Value returned by call number `n` (0-indexed) of
`JT808Protocol.get_next_sequence` starting from state `s0`. -/
def devSeqValue (s0 n : Nat) : Nat :=
  (get_next_sequence (devSeqState s0 n)).1

/-- Counter state after `n` calls to `DC600Message.get_next_sequence`,
starting from state `s0` (a fresh `DC600Message` has `s0 = 0`). -/
def mmSeqState (s0 : Nat) : Nat → Nat
  | 0 => s0
  | n + 1 => (mm_get_next_sequence (mmSeqState s0 n)).2

/-- Value returned by call number `n` (0-indexed) of
`DC600Message.get_next_sequence` starting from state `s0`. -/
def mmSeqValue (s0 n : Nat) : Nat :=
  (mm_get_next_sequence (mmSeqState s0 n)).1

/-- `JT808Protocol.build_message` (dc600_device_simulator.py:192-245) with the
default `encrypt=0`, `subpackage=False` and the sequence counter value passed
explicitly. `phone` is the device-id digit string. -/
def build_message (msg_id : Nat) (phone : List Nat) (body : List Nat)
    (seq : Nat) : List Nat :=
  let properties := body.length &&& 0x3FF
  let header := pack16 msg_id ++ pack16 properties ++ encode_bcd phone 12 ++
    pack16 seq
  let msg_data := header ++ body
  let checksum := calculate_checksum msg_data
  [0x7E] ++ escape_data (msg_data ++ [checksum]) ++ [0x7E]

/-- The result dictionary of `JT808Protocol.parse_message`. -/
structure ParsedMsg where
  msg_id : Nat
  phone : String
  sequence : Nat
  body : List Nat
  properties : Nat
deriving Repr, DecidableEq

/-- Python exceptions that the embedded code can raise. -/
inductive PyErr where
  | structError
deriving Repr, DecidableEq

/-- `JT808Protocol.parse_message` (dc600_device_simulator.py:247-293).
Returns `.ok none` where the Python returns `None`, `.ok (some r)` on success,
and `.error .structError` where the Python raises `struct.error` — which
happens when `data[10:12]` is shorter than 2 bytes, i.e. when the unescaped
frame content is exactly 12 bytes (the guard `len(unescaped) < 12` lets that
case through to `struct.unpack('>H', data[10:12])`). -/
def parse_message (frame : List Nat) : Except PyErr (Option ParsedMsg) :=
  if frame.length < 13 then .ok none
  else if frame.headD 0 ≠ 0x7E ∨ frame.getLastD 0 ≠ 0x7E then .ok none
  else
    let unescaped := unescape_data ((frame.drop 1).dropLast)
    if unescaped.length < 12 then .ok none
    else
      let checksum := unescaped.getLastD 0
      let data := unescaped.dropLast
      if checksum ≠ calculate_checksum data then .ok none
      else
        let msg_id := unpack16 (pySlice data 0 2)
        let properties := unpack16 (pySlice data 2 4)
        let phone := decode_bcd (pySlice data 4 10)
        if data.length < 12 then .error .structError
        else
          let sequence := unpack16 (pySlice data 10 12)
          let body_len := properties &&& 0x3FF
          let body := pySlice data 12 (12 + body_len)
          .ok (some ⟨msg_id, phone, sequence, body, properties⟩)

/-- `bcd_encode_phone` (dc600multimedia.py:76-85): right-pad with `'0'` to 12
digits, truncate to 12, then pack six digit pairs. -/
def bcd_encode_phone (phone : List Nat) : List Nat :=
  packPairs ((phone ++ List.replicate (12 - phone.length) 0).take 12)

/-- The unescaped header-plus-body built by `DC600Message.encode_message`
(dc600multimedia.py:176-187), with the sequence value passed explicitly and
the default `is_subpackage=False`. -/
def mm_unescaped (msg_type : Nat) (body : List Nat) (device_id : List Nat)
    (sequence : Nat) : List Nat :=
  let attributes := body.length &&& 0x3FF
  pack16 msg_type ++ pack16 attributes ++ bcd_encode_phone device_id ++
    pack16 sequence ++ body

/-- `DC600Message.encode_message` (dc600multimedia.py:160-198): note the
checksum byte is appended *after* the escape step, directly before the
closing delimiter. -/
def encode_message (msg_type : Nat) (body : List Nat) (device_id : List Nat)
    (sequence : Nat) : List Nat :=
  let unescaped := mm_unescaped msg_type body device_id sequence
  let checksum := calculate_checksum unescaped
  [0x7E] ++ escape_data unescaped ++ [checksum, 0x7E]

/-- Lowercase hex digit, as used by Python `bytes.hex()`. -/
def hexDigit (n : Nat) : Char :=
  if n < 10 then Char.ofNat (48 + n) else Char.ofNat (87 + n)

/-- Python `bytes.hex()`: two lowercase hex digits per byte. -/
def bytesHex : List Nat → String
  | [] => ""
  | b :: rest =>
    (String.mk [hexDigit (b / 16 % 16), hexDigit (b % 16)]) ++ bytesHex rest

/-- The result dictionary of `DC600Message.decode_response`. -/
structure MMResponse where
  type : Nat
  attributes : Nat
  phone : String
  sequence : Nat
  body : List Nat
  body_length : Nat
deriving Repr, DecidableEq

/-- `DC600Message.decode_response` (dc600multimedia.py:200-237). The received
checksum is read from the *escaped* stream's last content byte; a checksum
mismatch is only logged (`log(..., "WARNING")`) and parsing continues, so a
mismatched frame still yields a parsed record. -/
def decode_response (data : List Nat) : Option MMResponse :=
  if data.length < 5 then none
  else if data.headD 0 ≠ 0x7E ∨ data.getLastD 0 ≠ 0x7E then none
  else
    let d := (data.drop 1).dropLast
    let stripped := d.dropLast
    let unescaped := unescape_data stripped
    if unescaped.length < 12 then none
    else
      let msg_type := unpack16 (pySlice unescaped 0 2)
      let attributes := unpack16 (pySlice unescaped 2 4)
      let body_length := attributes &&& 0x3FF
      let phone_bcd := pySlice unescaped 4 10
      let sequence := unpack16 (pySlice unescaped 10 12)
      let body := unescaped.drop 12
      some ⟨msg_type, attributes, bytesHex phone_bcd, sequence, body,
        body_length⟩

/-- The header-plus-body built by `JT808Message.build_message`
(test_dc600_protocol.py:100-116): message id, properties (body length only),
the device id passed as raw bytes, and the sequence, followed by the body. -/
def test_msg_data (msg_id : Nat) (device_id : List Nat) (seq : Nat)
    (body : List Nat) : List Nat :=
  (pack16 msg_id ++ pack16 (body.length &&& 0x3FF) ++ device_id ++
    pack16 seq) ++ body

/-- `JT808Message.build_message` (test_dc600_protocol.py:98-131): like
`DC600Message.encode_message`, the checksum byte is appended *after* the
escape step (line 128), directly before the closing delimiter. -/
def test_build_message (msg_id : Nat) (device_id : List Nat) (seq : Nat)
    (body : List Nat) : List Nat :=
  let data := test_msg_data msg_id device_id seq body
  let checksum := calculate_checksum data
  [0x7E] ++ escape_data data ++ [checksum, 0x7E]

/-- `ADASAlarmType` (dc600_device_simulator.py:86-98). -/
inductive ADASAlarmType where
  | FORWARD_COLLISION_WARNING
  | LANE_DEPARTURE_WARNING
  | VEHICLE_PROXIMITY_WARNING
  | PEDESTRIAN_COLLISION_WARNING
  | RAPID_LANE_CHANGE_WARNING
  | ROAD_SIGN_OVERSPEED_WARNING
  | ROAD_SIGN_RECOGNITION
  | ACTIVE_PHOTOGRAPHING
  | LANE_DEPARTURE_DISTANCE_ALARM
  | OBSTACLE_ALARM
  | HEADWAY_MONITORING_WARNING
deriving Repr, DecidableEq

/-- `DSMAlarmType` (dc600_device_simulator.py:101-108). -/
inductive DSMAlarmType where
  | FATIGUE_DRIVING
  | PHONE_CALL
  | SMOKING
  | DISTRACTION
  | DRIVER_ABNORMAL
  | SEATBELT_NOT_FASTENED
deriving Repr, DecidableEq

/-- `ADAS_WARNTYPE_MAP.get(alarm_type, 0)` (dc600_device_simulator.py:112-118). -/
def adasWarntype : ADASAlarmType → Nat
  | .FORWARD_COLLISION_WARNING => 1
  | .PEDESTRIAN_COLLISION_WARNING => 2
  | .LANE_DEPARTURE_WARNING => 3
  | .HEADWAY_MONITORING_WARNING => 4
  | .ROAD_SIGN_RECOGNITION => 5
  | _ => 0

/-- `DSM_WARNTYPE_MAP.get(alarm_type, 0)` (dc600_device_simulator.py:120-126). -/
def dsmWarntype : DSMAlarmType → Nat
  | .FATIGUE_DRIVING => 12
  | .PHONE_CALL => 9
  | .SMOKING => 10
  | .DISTRACTION => 11
  | .SEATBELT_NOT_FASTENED => 14
  | _ => 0

/-- Content bytes (after the tag and length bytes) written by
`DC600Device.build_adas_alarm_extra_data` (dc600_device_simulator.py:866-949).
The alarm id, the random per-subtype fields, the vehicle speed/position and
the 6-byte BCD time are explicit parameters; note the trailing
`data.extend(bytes(22))` ("Alarm identification (16 bytes + 6 bytes)"). -/
def adas_content (t : ADASAlarmType) (level alarmId fcwSpeed fcwDist
    ldwDeviation roadSignType speed altitude lat lon : Nat)
    (timeBcd : List Nat) : List Nat :=
  pack32 alarmId ++ [0x00, adasWarntype t, level] ++
    [if t = .FORWARD_COLLISION_WARNING then fcwSpeed else 0] ++
    [if t = .FORWARD_COLLISION_WARNING then fcwDist else 0] ++
    [if t = .LANE_DEPARTURE_WARNING then ldwDeviation else 0] ++
    [if t = .ROAD_SIGN_RECOGNITION then roadSignType else 0] ++
    [0, speed] ++ pack16 altitude ++ pack32 lat ++ pack32 lon ++ timeBcd ++
    pack16 0 ++ List.replicate 22 0

/-- `DC600Device.build_adas_alarm_extra_data` (dc600_device_simulator.py:
866-949): tag `0x64`, then a length byte set to the actual content length,
then the content. -/
def build_adas_alarm_extra_data (t : ADASAlarmType) (level alarmId fcwSpeed
    fcwDist ldwDeviation roadSignType speed altitude lat lon : Nat)
    (timeBcd : List Nat) : List Nat :=
  let content := adas_content t level alarmId fcwSpeed fcwDist ldwDeviation
    roadSignType speed altitude lat lon timeBcd
  0x64 :: content.length :: content

/-- Content bytes written by `DC600Device.build_dsm_alarm_extra_data`
(dc600_device_simulator.py:951-1015). -/
def dsm_content (t : DSMAlarmType) (level alarmId fatigueLevel speed altitude
    lat lon : Nat) (timeBcd : List Nat) : List Nat :=
  pack32 alarmId ++ [0x00, dsmWarntype t, level] ++
    [if t = .FATIGUE_DRIVING then fatigueLevel else 0] ++
    List.replicate 4 0 ++ [speed] ++ pack16 altitude ++ pack32 lat ++
    pack32 lon ++ timeBcd ++ pack16 0 ++ List.replicate 16 0

/-- `DC600Device.build_dsm_alarm_extra_data` (dc600_device_simulator.py:
951-1015): tag `0x65`, then a length byte set to the actual content length,
then the content. -/
def build_dsm_alarm_extra_data (t : DSMAlarmType) (level alarmId fatigueLevel
    speed altitude lat lon : Nat) (timeBcd : List Nat) : List Nat :=
  let content := dsm_content t level alarmId fatigueLevel speed altitude lat
    lon timeBcd
  0x65 :: content.length :: content

/-- The ADAS payload built inline by `DC600Device.send_location_with_alarm`
(dc600multimedia.py:459-480): `adas_type = 0x01`, flag `0x01`, level `0x02`,
N/A fields zero, and a 16-byte all-zero alarm sign number. -/
def mm_adas_data (alarmId speed altitude lat lon status : Nat)
    (timeBcd : List Nat) : List Nat :=
  pack32 alarmId ++ [0x01, 0x01, 0x02, 0, 0, 0, 0, 0, speed / 10] ++
    pack16 altitude ++ pack32 lat ++ pack32 lon ++ timeBcd ++
    pack16 (status &&& 0xFFFF) ++ List.replicate 16 0

/-- The extension bytes appended to the location body for the ADAS case
(dc600multimedia.py:482-484): id `0x64`, a length byte equal to
`len(adas_data)`, then the payload. -/
def mm_adas_extension (alarmId speed altitude lat lon status : Nat)
    (timeBcd : List Nat) : List Nat :=
  let d := mm_adas_data alarmId speed altitude lat lon status timeBcd
  0x64 :: d.length :: d

/-- The DSM payload built inline by `DC600Device.send_location_with_alarm`
(dc600multimedia.py:489-508): `dsm_type = 0x02`, flag `0x01`, level `0x02`. -/
def mm_dsm_data (alarmId speed altitude lat lon status : Nat)
    (timeBcd : List Nat) : List Nat :=
  pack32 alarmId ++ [0x01, 0x02, 0x02, 0] ++ List.replicate 4 0 ++
    [speed / 10] ++ pack16 altitude ++ pack32 lat ++ pack32 lon ++ timeBcd ++
    pack16 (status &&& 0xFFFF) ++ List.replicate 16 0

/-- The extension bytes appended to the location body for the DSM case:
id `0x65`, a length byte equal to `len(dsm_data)`, then the payload. -/
def mm_dsm_extension (alarmId speed altitude lat lon status : Nat)
    (timeBcd : List Nat) : List Nat :=
  let d := mm_dsm_data alarmId speed altitude lat lon status timeBcd
  0x65 :: d.length :: d

/-- The fields of the result dictionary of `analyze_9208_hex` that the alarm
sign block classification populates. -/
structure A9208 where
  msg_id : Nat
  body_length : Nat
  sequence : Nat
  server_ip_length : Nat
  alarm_flag : List Nat
  alarm_flag_status : String
  bug_present : Bool
deriving Repr, DecidableEq

/-- `analyze_9208_hex` (analyze_9208.py:11-96) from the decoded byte string
onward. Embedded as `none` where the Python code returns an error dictionary
(`len(data) < 65`), raises `UnicodeDecodeError` (`.decode('ascii')` on a
non-ASCII server-ip slice), or raises `IndexError` (a server-port index past
the end). The classification at lines 69-79: a 16-byte all-zero alarm flag
sets `bug_present = True` with status `"✗ ALL ZEROS (BUG!)"`, anything else
sets `bug_present = False` with status `"✓ POPULATED (GOOD)"`. -/
def analyze_9208_hex (data : List Nat) : Option A9208 :=
  if data.length < 65 then none
  else
    let msg_id := (data.getD 0 0) <<< 8 ||| data.getD 1 0
    let properties := (data.getD 2 0) <<< 8 ||| data.getD 3 0
    let body_len := properties &&& 0x3FF
    let seq := (data.getD 10 0) <<< 8 ||| data.getD 11 0
    let ip_len := data.getD 12 0
    let server_ip := pySlice data 13 (13 + ip_len)
    if server_ip.any (fun b => 128 ≤ b) then none
    else
      let port_offset := 13 + ip_len
      if data.length ≤ port_offset + 1 then none
      else
        let alarm_flag_offset := port_offset + 4
        let alarm_flag := pySlice data alarm_flag_offset
          (alarm_flag_offset + 16)
        if alarm_flag = List.replicate 16 0 then
          some ⟨msg_id, body_len, seq, ip_len, alarm_flag,
            "✗ ALL ZEROS (BUG!)", true⟩
        else
          some ⟨msg_id, body_len, seq, ip_len, alarm_flag,
            "✓ POPULATED (GOOD)", false⟩

/-! ## Helper lemmas -/

theorem packPairs_length : ∀ l : List Nat,
    (packPairs l).length = (l.length + 1) / 2
  | [] => by simp [packPairs]
  | [_] => by simp [packPairs]
  | _ :: _ :: t => by
    simp only [packPairs, List.length_cons, packPairs_length t]
    omega

theorem zfill_length (s : List Nat) (n : Nat) :
    (zfill s n).length = max n s.length := by
  simp [zfill]
  omega

theorem encode_bcd_length (s : List Nat) (td : Nat) :
    (encode_bcd s td).length = (max td s.length + 1) / 2 := by
  rw [encode_bcd, packPairs_length, zfill_length]

theorem escape_data_append (l r : List Nat) :
    escape_data (l ++ r) = escape_data l ++ escape_data r := by
  induction l with
  | nil => rfl
  | cons b t ih => simp [escape_data, ih]

theorem length_le_escape_data (l : List Nat) :
    l.length ≤ (escape_data l).length := by
  induction l with
  | nil => simp
  | cons b t ih =>
    simp only [escape_data, List.length_append, List.length_cons]
    split <;> [skip; split] <;> simp <;> omega

theorem unescape_data_cons_of_ne (b : Nat) (t : List Nat) (hb : b ≠ 0x7D) :
    unescape_data (b :: t) = b :: unescape_data t := by
  cases t with
  | nil => rfl
  | cons y r => simp [unescape_data, hb]

theorem unescape_data_escape_data (l : List Nat) :
    unescape_data (escape_data l) = l := by
  induction l with
  | nil => rfl
  | cons b t ih =>
    by_cases h1 : b = 0x7E
    · subst h1
      show unescape_data (0x7D :: 0x02 :: escape_data t) = _
      rw [unescape_data]
      simp [ih]
    · by_cases h2 : b = 0x7D
      · subst h2
        show unescape_data (0x7D :: 0x01 :: escape_data t) = _
        rw [unescape_data]
        simp [ih]
      · have hesc : escape_data (b :: t) = b :: escape_data t := by
          simp [escape_data, h1, h2]
        rw [hesc, unescape_data_cons_of_ne b _ h2, ih]

/-! ## Claims -/

/-- C3: for every byte sequence `b` containing no occurrence of the delimiter
value `0x7E`, `unescape_data (escape_data b) = b`. -/
theorem c3_unescape_escape_roundtrip (b : List Nat)
    (h : ∀ x ∈ b, x ≠ 0x7E) : unescape_data (escape_data b) = b :=
  unescape_data_escape_data b

/-- Witness for C3 at the concrete input `[0x00, 0x7D, 0x5A, 0x7D, 0x01]`. -/
theorem c3_unescape_escape_roundtrip_witness :
    (∀ x ∈ [0x00, 0x7D, 0x5A, 0x7D, 0x01], x ≠ 0x7E) ∧
      unescape_data (escape_data [0x00, 0x7D, 0x5A, 0x7D, 0x01]) =
        [0x00, 0x7D, 0x5A, 0x7D, 0x01] :=
  ⟨by decide, c3_unescape_escape_roundtrip _ (by decide)⟩

theorem unpack16_pack16 (x : Nat) : unpack16 (pack16 x) = x := by
  show 256 * (x / 256) + x % 256 = x
  exact Nat.div_add_mod x 256

theorem and_1023_of_le (n : Nat) (h : n ≤ 1023) : n &&& 1023 = n := by
  rw [Nat.and_pow_two_sub_one_eq_mod n 10]
  omega

/-- Evaluation of `JT808Protocol.parse_message` on a frame built as
`0x7E || escape(payload || checksum(payload)) || 0x7E` with a payload of at
least 12 bytes: parsing succeeds and slices the payload as the header
layout prescribes. -/
theorem parse_message_eval (payload : List Nat) (h12 : 12 ≤ payload.length) :
    parse_message ([0x7E] ++
        escape_data (payload ++ [calculate_checksum payload]) ++ [0x7E]) =
      .ok (some ⟨unpack16 (pySlice payload 0 2),
        decode_bcd (pySlice payload 4 10),
        unpack16 (pySlice payload 10 12),
        pySlice payload 12 (12 + (unpack16 (pySlice payload 2 4) &&& 0x3FF)),
        unpack16 (pySlice payload 2 4)⟩) := by
  have hesc := length_le_escape_data (payload ++ [calculate_checksum payload])
  simp only [List.length_append, List.length_cons, List.length_nil] at hesc
  have hlast : ((0x7E : Nat) :: (escape_data (payload ++
      [calculate_checksum payload]) ++ [0x7E])).getLast?.getD 0 = 0x7E := by
    show (((0x7E : Nat) :: escape_data (payload ++
      [calculate_checksum payload])) ++ [0x7E]).getLast?.getD 0 = 0x7E
    rw [List.getLast?_concat]
    rfl
  rw [parse_message]
  rw [if_neg (by simp; omega)]
  rw [if_neg (by simp [hlast])]
  have hmid : ((([0x7E] ++
      escape_data (payload ++ [calculate_checksum payload]) ++ [0x7E]).drop
        1).dropLast) =
      escape_data (payload ++ [calculate_checksum payload]) := by
    rw [show ([0x7E] ++
        escape_data (payload ++ [calculate_checksum payload]) ++ [0x7E]) =
        0x7E :: (escape_data (payload ++ [calculate_checksum payload]) ++
          [0x7E]) from rfl]
    rw [List.drop_one, List.tail_cons, List.dropLast_concat]
  rw [hmid, unescape_data_escape_data]
  rw [if_neg (by simp; omega)]
  rw [show (payload ++ [calculate_checksum payload]).getLastD 0 =
    calculate_checksum payload by simp]
  rw [List.dropLast_concat]
  rw [if_neg (by simp)]
  rw [if_neg (by omega)]

/-- C1: for every 16-bit message id, 12-digit device id, and body of at most
1023 bytes, `parse_message (build_message ...)` succeeds with the original
body and message id. -/
theorem c1_encode_decode_roundtrip (msgId : Nat) (phone body : List Nat)
    (seq : Nat) (hm : msgId < 65536) (hp : phone.length = 12)
    (hb : body.length ≤ 1023) (hs : seq < 65536) :
    ∃ r, parse_message (build_message msgId phone body seq) =
      .ok (some r) ∧ r.body = body ∧ r.msg_id = msgId := by
  have he6 : (encode_bcd phone 12).length = 6 := by
    rw [encode_bcd_length, hp]
    omega
  have hbm : build_message msgId phone body seq =
      [0x7E] ++ escape_data (((pack16 msgId ++ pack16 (body.length &&& 0x3FF)
        ++ encode_bcd phone 12 ++ pack16 seq) ++ body) ++
          [calculate_checksum ((pack16 msgId ++
            pack16 (body.length &&& 0x3FF) ++ encode_bcd phone 12 ++
            pack16 seq) ++ body)]) ++ [0x7E] := rfl
  have h12 : 12 ≤ ((pack16 msgId ++ pack16 (body.length &&& 0x3FF) ++
      encode_bcd phone 12 ++ pack16 seq) ++ body).length := by
    simp [pack16, he6]
    omega
  rw [hbm, parse_message_eval _ h12]
  have hand : body.length &&& 1023 = body.length := and_1023_of_le _ hb
  have hs02 : pySlice ((pack16 msgId ++ pack16 (body.length &&& 0x3FF) ++
      encode_bcd phone 12 ++ pack16 seq) ++ body) 0 2 = pack16 msgId := by
    rw [pySlice, List.drop_zero, List.append_assoc, List.append_assoc,
      List.append_assoc]
    exact List.take_left' (by simp [pack16])
  have hs24 : pySlice ((pack16 msgId ++ pack16 (body.length &&& 0x3FF) ++
      encode_bcd phone 12 ++ pack16 seq) ++ body) 2 4 =
      pack16 (body.length &&& 0x3FF) := by
    rw [pySlice, List.append_assoc, List.append_assoc, List.append_assoc]
    rw [List.drop_left' (show (pack16 msgId).length = 2 by simp [pack16])]
    exact List.take_left' (by simp [pack16])
  have hdrop12 : ((pack16 msgId ++ pack16 body.length ++
      encode_bcd phone 12 ++ pack16 seq) ++ body).drop 12 = body :=
    List.drop_left' (by simp [pack16, he6])
  refine ⟨_, rfl, ?_, ?_⟩
  · dsimp only
    rw [hs24, unpack16_pack16, hand, hand, pySlice, hdrop12]
    simp
  · dsimp only
    rw [hs02, unpack16_pack16]

/-- Witness for C1 at message id `0x0200`, device id `496076898991`, a
3-byte body, and sequence 7. -/
theorem c1_encode_decode_roundtrip_witness :
    0x0200 < 65536 ∧ ([4, 9, 6, 0, 7, 6, 8, 9, 8, 9, 9, 1] : List Nat).length
      = 12 ∧ ([0xAA, 0x7E, 0x7D] : List Nat).length ≤ 1023 ∧ 7 < 65536 ∧
    ∃ r, parse_message (build_message 0x0200 [4, 9, 6, 0, 7, 6, 8, 9, 8, 9,
      9, 1] [0xAA, 0x7E, 0x7D] 7) = .ok (some r) ∧ r.body = [0xAA, 0x7E, 0x7D]
      ∧ r.msg_id = 0x0200 :=
  ⟨by decide, by decide, by decide, by decide,
    c1_encode_decode_roundtrip 0x0200 _ _ 7 (by decide) (by decide)
      (by decide) (by decide)⟩

/-- C5 (refuting evaluation): the frame `7E 00×12 7E` passes the length,
delimiter and checksum guards of `parse_message` with an unescaped content of
exactly 12 bytes, and then `struct.unpack('>H', data[10:12])` is applied to a
1-byte slice — the Python code raises `struct.error` instead of returning a
value. -/
theorem c5_parse_message_raises :
    parse_message (0x7E :: (List.replicate 12 0 ++ [0x7E])) =
      .error .structError := by rfl

/-- C4 (amended, part that holds): in `JT808Protocol.parse_message`, a frame
that passes the length and delimiter checks but whose transmitted trailing
checksum byte differs from the XOR of the unescaped header+body is dropped:
the parse returns `None` and no exception propagates. -/
theorem c4_parse_checksum_mismatch (frame : List Nat)
    (hlen : ¬ frame.length < 13)
    (hd : frame.headD 0 = 0x7E) (hl : frame.getLastD 0 = 0x7E)
    (hu : ¬ (unescape_data ((frame.drop 1).dropLast)).length < 12)
    (hck : (unescape_data ((frame.drop 1).dropLast)).getLastD 0 ≠
      calculate_checksum
        (unescape_data ((frame.drop 1).dropLast)).dropLast) :
    parse_message frame = .ok none := by
  rw [parse_message, if_neg hlen, if_neg (by push_neg; exact ⟨hd, hl⟩),
    if_neg hu, if_pos hck]

/-- Witness for the amended C4: the frame for message id 1, sequence 1 and an
empty body whose correct checksum 0 was bit-flipped to 1. -/
theorem c4_parse_checksum_mismatch_witness :
    (¬ ([0x7E, 0, 1, 0, 0, 0, 0, 0, 0, 0, 0, 0, 1, 1, 0x7E] :
      List Nat).length < 13) ∧
    parse_message [0x7E, 0, 1, 0, 0, 0, 0, 0, 0, 0, 0, 0, 1, 1, 0x7E] =
      .ok none :=
  ⟨by decide, c4_parse_checksum_mismatch _ (by decide) (by decide) (by decide)
    (by decide) (by decide)⟩

/-- C4 (counterexample): `DC600Message.decode_response` does *not* drop a
checksum-mismatched frame: on the same bit-flipped frame it logs a warning
and still returns a parsed record, refuting "the frame yields no parsed
record" for this decoder. The second conjunct states the mismatch in the
decoder's own terms (the transmitted trailing checksum byte vs. the XOR of
the unescaped content). -/
theorem c4_decode_response_mismatch_returns_record :
    (decode_response [0x7E, 0, 1, 0, 0, 0, 0, 0, 0, 0, 0, 0, 1, 1,
      0x7E]).isSome = true ∧
    ((([0x7E, 0, 1, 0, 0, 0, 0, 0, 0, 0, 0, 0, 1, 1, 0x7E] : List Nat).drop
      1).dropLast.getLastD 0 ≠
      calculate_checksum (unescape_data
        ((([0x7E, 0, 1, 0, 0, 0, 0, 0, 0, 0, 0, 0, 1, 1, 0x7E] :
          List Nat).drop 1).dropLast.dropLast))) := by decide

/-- A raw-checksum frame `DELIM || escape(u) || ck || DELIM` equals the
all-escaped frame `DELIM || escape(u || ck) || DELIM` if and only if the
checksum byte `ck` needs no escaping: when `ck` is `0x7D` or `0x7E` the two
frames even differ in length. -/
theorem raw_checksum_frame_eq_iff (u : List Nat) (ck : Nat) :
    [0x7E] ++ escape_data u ++ [ck, 0x7E] =
      [0x7E] ++ escape_data (u ++ [ck]) ++ [0x7E] ↔
      (ck ≠ 0x7D ∧ ck ≠ 0x7E) := by
  rw [escape_data_append]
  constructor
  · intro heq
    have hl := congrArg List.length heq
    simp only [List.length_append, List.length_cons, List.length_nil] at hl
    by_cases h7D : ck = 0x7D
    · subst h7D
      simp [escape_data] at hl
      omega
    · by_cases h7E : ck = 0x7E
      · subst h7E
        simp [escape_data] at hl
        omega
      · exact ⟨h7D, h7E⟩
  · rintro ⟨h7D, h7E⟩
    have hsingle : escape_data [ck] = [ck] := by
      simp [escape_data, h7D, h7E]
    rw [hsingle]
    simp

/-- C2 (amended): `JT808Protocol.build_message` includes the checksum byte in
the byte-stuffing step, while both `DC600Message.encode_message` and
`JT808Message.build_message` (test_dc600_protocol.py) escape only
header+body and append the raw checksum byte; for each of the two
raw-checksum encoders the emitted frame equals the claimed shape
`DELIM || escape(header || body || cksum) || DELIM` if and only if the
checksum byte is neither `0x7D` nor `0x7E`. -/
theorem c2_checksum_escape_amended :
    (∀ msgId : Nat, ∀ phone body : List Nat, ∀ seq : Nat,
      build_message msgId phone body seq =
        [0x7E] ++ escape_data (((pack16 msgId ++
          pack16 (body.length &&& 0x3FF) ++ encode_bcd phone 12 ++
          pack16 seq) ++ body) ++ [calculate_checksum ((pack16 msgId ++
          pack16 (body.length &&& 0x3FF) ++ encode_bcd phone 12 ++
          pack16 seq) ++ body)]) ++ [0x7E]) ∧
    (∀ msg_type : Nat, ∀ body device_id : List Nat, ∀ seq : Nat,
      encode_message msg_type body device_id seq =
        [0x7E] ++ escape_data (mm_unescaped msg_type body device_id seq ++
          [calculate_checksum (mm_unescaped msg_type body device_id seq)]) ++
          [0x7E] ↔
      (calculate_checksum (mm_unescaped msg_type body device_id seq) ≠ 0x7D ∧
        calculate_checksum (mm_unescaped msg_type body device_id seq) ≠
          0x7E)) ∧
    (∀ msg_id : Nat, ∀ device_id : List Nat, ∀ seq : Nat, ∀ body : List Nat,
      test_build_message msg_id device_id seq body =
        [0x7E] ++ escape_data (test_msg_data msg_id device_id seq body ++
          [calculate_checksum (test_msg_data msg_id device_id seq body)]) ++
          [0x7E] ↔
      (calculate_checksum (test_msg_data msg_id device_id seq body) ≠ 0x7D ∧
        calculate_checksum (test_msg_data msg_id device_id seq body) ≠
          0x7E)) := by
  refine ⟨?_, ?_, ?_⟩
  · intro msgId phone body seq
    rfl
  · intro msg_type body device_id seq
    rw [show encode_message msg_type body device_id seq =
      [0x7E] ++ escape_data (mm_unescaped msg_type body device_id seq) ++
        [calculate_checksum (mm_unescaped msg_type body device_id seq),
          0x7E] from rfl]
    exact raw_checksum_frame_eq_iff _ _
  · intro msg_id device_id seq body
    rw [show test_build_message msg_id device_id seq body =
      [0x7E] ++ escape_data (test_msg_data msg_id device_id seq body) ++
        [calculate_checksum (test_msg_data msg_id device_id seq body),
          0x7E] from rfl]
    exact raw_checksum_frame_eq_iff _ _

/-- Witness for the amended C2 at concrete inputs (device id `000000000000`,
message type 1, 1-byte body `0x00`, sequence 1, whose checksum `0x01` needs
no escaping), exercising the multimedia encoder's biconditional in both
directions. -/
theorem c2_checksum_escape_amended_witness :
    (calculate_checksum (mm_unescaped 1 [0x00] (List.replicate 12 0) 1) ≠
      0x7D ∧
     calculate_checksum (mm_unescaped 1 [0x00] (List.replicate 12 0) 1) ≠
      0x7E) ∧
    encode_message 1 [0x00] (List.replicate 12 0) 1 =
      [0x7E] ++ escape_data (mm_unescaped 1 [0x00] (List.replicate 12 0) 1 ++
        [calculate_checksum (mm_unescaped 1 [0x00] (List.replicate 12 0) 1)])
        ++ [0x7E] :=
  ⟨⟨by decide, by decide⟩,
    (c2_checksum_escape_amended.2.1 1 [0x00] (List.replicate 12 0) 1).mpr
      ⟨by decide, by decide⟩⟩

/-- C2 (counterexample): for message type 1, device id `000000000000`, body
`[0x7F]` and sequence 1 the multimedia encoder's checksum is `0x7E`, and the
frame it emits is *not* the delimiter-wrapped escape of
header+body+checksum: the raw checksum byte `0x7E` sits unescaped before the
closing delimiter. -/
theorem c2_checksum_escape_counterexample :
    encode_message 1 [0x7F] (List.replicate 12 0) 1 ≠
      [0x7E] ++ escape_data (mm_unescaped 1 [0x7F] (List.replicate 12 0) 1 ++
        [calculate_checksum (mm_unescaped 1 [0x7F] (List.replicate 12 0) 1)])
        ++ [0x7E] := by decide

/-- C6 (counterexample): a fully-populated ADAS extension produced by
`DC600Device.build_adas_alarm_extra_data` (forward-collision alarm, level 2,
a 6-byte BCD time) carries a payload of 53 bytes after the tag and length
bytes — not 47 — because of the trailing 22-byte
"alarm identification (16 bytes + 6 bytes)" block. -/
theorem c6_adas_payload_counterexample :
    ((build_adas_alarm_extra_data .FORWARD_COLLISION_WARNING 2 1 60 25 0 0
      55 100 43646766 79387421 [0x25, 0x01, 0x01, 0x12, 0x00, 0x00]).drop
        2).length = 53 ∧ (53 : Nat) ≠ 47 := by decide

/-- C6 (amended): the one-byte length field always equals the actual payload
length for all four alarm-extension builders, and the payload is 47 bytes for
the device simulator's DSM builder and both multimedia builders — but 53
bytes for the device simulator's ADAS builder. -/
theorem c6_extension_lengths_amended :
    (∀ level alarmId a b c d speed alt lat lon : Nat,
      ∀ ty : ADASAlarmType, ∀ timeBcd : List Nat, timeBcd.length = 6 →
      ((build_adas_alarm_extra_data ty level alarmId a b c d speed alt lat
        lon timeBcd).drop 2).length = 53 ∧
      (build_adas_alarm_extra_data ty level alarmId a b c d speed alt lat
        lon timeBcd).getD 1 0 =
        ((build_adas_alarm_extra_data ty level alarmId a b c d speed alt lat
          lon timeBcd).drop 2).length) ∧
    (∀ level alarmId fat speed alt lat lon : Nat, ∀ ty : DSMAlarmType,
      ∀ timeBcd : List Nat, timeBcd.length = 6 →
      ((build_dsm_alarm_extra_data ty level alarmId fat speed alt lat lon
        timeBcd).drop 2).length = 47 ∧
      (build_dsm_alarm_extra_data ty level alarmId fat speed alt lat lon
        timeBcd).getD 1 0 = 47) ∧
    (∀ alarmId speed alt lat lon status : Nat, ∀ timeBcd : List Nat,
      timeBcd.length = 6 →
      ((mm_adas_extension alarmId speed alt lat lon status timeBcd).drop
        2).length = 47 ∧
      (mm_adas_extension alarmId speed alt lat lon status timeBcd).getD 1 0 =
        47) ∧
    (∀ alarmId speed alt lat lon status : Nat, ∀ timeBcd : List Nat,
      timeBcd.length = 6 →
      ((mm_dsm_extension alarmId speed alt lat lon status timeBcd).drop
        2).length = 47 ∧
      (mm_dsm_extension alarmId speed alt lat lon status timeBcd).getD 1 0 =
        47) := by
  refine ⟨?_, ?_, ?_, ?_⟩
  · intro level alarmId a b c d speed alt lat lon ty timeBcd ht
    have hc : (adas_content ty level alarmId a b c d speed alt lat lon
        timeBcd).length = 53 := by
      simp [adas_content, pack16, pack32, ht]
    exact ⟨hc, rfl⟩
  · intro level alarmId fat speed alt lat lon ty timeBcd ht
    have hc : (dsm_content ty level alarmId fat speed alt lat lon
        timeBcd).length = 47 := by
      simp [dsm_content, pack16, pack32, ht]
    exact ⟨hc, hc⟩
  · intro alarmId speed alt lat lon status timeBcd ht
    have hc : (mm_adas_data alarmId speed alt lat lon status
        timeBcd).length = 47 := by
      simp [mm_adas_data, pack16, pack32, ht]
    exact ⟨hc, hc⟩
  · intro alarmId speed alt lat lon status timeBcd ht
    have hc : (mm_dsm_data alarmId speed alt lat lon status
        timeBcd).length = 47 := by
      simp [mm_dsm_data, pack16, pack32, ht]
    exact ⟨hc, hc⟩

/-- Witness for the amended C6 at concrete arguments for all four builders. -/
theorem c6_extension_lengths_amended_witness :
    (([0x25, 0x01, 0x01, 0x12, 0x00, 0x00] : List Nat).length = 6) ∧
    ((build_dsm_alarm_extra_data .PHONE_CALL 2 1 0 55 100 43646766 79387421
      [0x25, 0x01, 0x01, 0x12, 0x00, 0x00]).drop 2).length = 47 ∧
    (build_dsm_alarm_extra_data .PHONE_CALL 2 1 0 55 100 43646766 79387421
      [0x25, 0x01, 0x01, 0x12, 0x00, 0x00]).getD 1 0 = 47 :=
  ⟨by decide, c6_extension_lengths_amended.2.1 2 1 0 55 100 43646766
    79387421 .PHONE_CALL _ (by decide)⟩

/-- C7: `analyze_9208_hex` classifies a 16-byte all-zero alarm sign block as
uninitialized correlation data (`bug_present = True`,
status `"✗ ALL ZEROS (BUG!)"`) and any other 16-byte block as populated
(`bug_present = False`, status `"✓ POPULATED (GOOD)"`); the two outcomes are
distinct. -/
theorem c7_alarm_flag_classification (data : List Nat)
    (h65 : 65 ≤ data.length)
    (hip : ¬ (pySlice data 13 (13 + data.getD 12 0)).any
      (fun b => decide (128 ≤ b)))
    (hfull : 13 + data.getD 12 0 + 4 + 16 ≤ data.length) :
    ∃ r, analyze_9208_hex data = some r ∧
      r.alarm_flag = pySlice data (13 + data.getD 12 0 + 4)
        (13 + data.getD 12 0 + 4 + 16) ∧
      (r.alarm_flag = List.replicate 16 0 →
        r.bug_present = true ∧ r.alarm_flag_status = "✗ ALL ZEROS (BUG!)") ∧
      (r.alarm_flag ≠ List.replicate 16 0 →
        r.bug_present = false ∧ r.alarm_flag_status = "✓ POPULATED (GOOD)") ∧
      ("✗ ALL ZEROS (BUG!)" : String) ≠ "✓ POPULATED (GOOD)" := by
  rw [analyze_9208_hex]
  rw [if_neg (by omega)]
  rw [if_neg (by simpa using hip)]
  rw [if_neg (by omega)]
  by_cases hz : pySlice data (13 + data.getD 12 0 + 4)
      (13 + data.getD 12 0 + 4 + 16) = List.replicate 16 0
  · rw [if_pos hz]
    refine ⟨_, rfl, rfl, fun _ => ⟨rfl, rfl⟩, fun hne => absurd hz hne, ?_⟩
    decide
  · rw [if_neg hz]
    refine ⟨_, rfl, rfl, fun heq => absurd heq hz, fun _ => ⟨rfl, rfl⟩, ?_⟩
    decide

/-- Witness for C7: a 70-byte all-zero message body reaches the
classification with a 16-byte all-zero alarm flag. -/
theorem c7_alarm_flag_classification_witness :
    65 ≤ (List.replicate 70 0 : List Nat).length ∧
    ∃ r, analyze_9208_hex (List.replicate 70 0) = some r ∧
      r.alarm_flag = pySlice (List.replicate 70 0)
        (13 + (List.replicate 70 0 : List Nat).getD 12 0 + 4)
        (13 + (List.replicate 70 0 : List Nat).getD 12 0 + 4 + 16) ∧
      (r.alarm_flag = List.replicate 16 0 →
        r.bug_present = true ∧ r.alarm_flag_status = "✗ ALL ZEROS (BUG!)") ∧
      (r.alarm_flag ≠ List.replicate 16 0 →
        r.bug_present = false ∧ r.alarm_flag_status = "✓ POPULATED (GOOD)") ∧
      ("✗ ALL ZEROS (BUG!)" : String) ≠ "✓ POPULATED (GOOD)" :=
  ⟨by decide, c7_alarm_flag_classification (List.replicate 70 0) (by decide)
    (by decide) (by decide)⟩

theorem devSeqState_eq (s0 : Nat) (h : s0 < 65536) :
    ∀ n, devSeqState s0 n = (s0 + n) % 65536
  | 0 => by simp [devSeqState]; omega
  | n + 1 => by
    rw [devSeqState, devSeqState_eq s0 h n, get_next_sequence]
    show ((s0 + n) % 65536 + 1) % 65536 = _
    omega

theorem mmSeqState_eq (s0 : Nat) (h : s0 < 65535) :
    ∀ n, mmSeqState s0 n = (s0 + n) % 65535
  | 0 => by simp [mmSeqState]; omega
  | n + 1 => by
    rw [mmSeqState, mmSeqState_eq s0 h n, mm_get_next_sequence]
    show ((s0 + n) % 65535 + 1) % 65535 = _
    omega

/-- C8 (counterexample): starting a fresh `DC600Message` counter, call number
65533 (0-indexed) returns 65534 but the next call returns 0, not
`(65534 + 1) % 65536 = 65535`: the multimedia generator wraps modulo
`0xFFFF = 65535`, so the claimed mod-65536 progression is false and the value
65535 is skipped. -/
theorem c8_sequence_counterexample :
    mmSeqValue 0 65533 = 65534 ∧ mmSeqValue 0 65534 = 0 ∧
      mmSeqValue 0 65534 ≠ (mmSeqValue 0 65533 + 1) % 65536 := by
  have hval : ∀ n, mmSeqValue 0 n = (n + 1) % 65535 := by
    intro n
    show (mm_get_next_sequence (mmSeqState 0 n)).1 = _
    rw [mmSeqState_eq 0 (by omega) n]
    show ((0 + n) % 65535 + 1) % 65535 = (n + 1) % 65535
    omega
  rw [hval 65533, hval 65534]
  omega

/-- C8 (amended): `JT808Protocol.get_next_sequence` does return a counter
increasing by one modulo 65536, taking all 65536 values before any repeat;
`DC600Message.get_next_sequence`, however, wraps modulo `0xFFFF = 65535`
(its call `n` from state `s0 < 65535` returns `(s0+n+1) % 65535`) and never
returns the value 65535. -/
theorem c8_sequence_amended :
    (∀ s0, s0 < 65536 → ∀ n,
      devSeqValue s0 (n + 1) = (devSeqValue s0 n + 1) % 65536) ∧
    (∀ s0, s0 < 65536 → ∀ i j, i < 65536 → j < 65536 → i ≠ j →
      devSeqValue s0 i ≠ devSeqValue s0 j) ∧
    (∀ s0, s0 < 65535 → ∀ n, mmSeqValue s0 n = (s0 + n + 1) % 65535) ∧
    (∀ s0 n, mmSeqValue s0 n ≠ 65535) := by
  refine ⟨?_, ?_, ?_, ?_⟩
  · intro s0 h n
    show devSeqState s0 (n + 1) = (devSeqState s0 n + 1) % 65536
    rw [devSeqState_eq s0 h n, devSeqState_eq s0 h (n + 1)]
    omega
  · intro s0 h i j hi hj hne
    show devSeqState s0 i ≠ devSeqState s0 j
    rw [devSeqState_eq s0 h i, devSeqState_eq s0 h j]
    omega
  · intro s0 h n
    show (mmSeqState s0 n + 1) % 65535 = _
    rw [mmSeqState_eq s0 h n]
    omega
  · intro s0 n
    show (mmSeqState s0 n + 1) % 65535 ≠ 65535
    omega

/-- Witness for the amended C8: from a fresh device-simulator counter, call 6
returns the successor mod 65536 of call 5's value. -/
theorem c8_sequence_amended_witness :
    (0 : Nat) < 65536 ∧ devSeqValue 0 6 = (devSeqValue 0 5 + 1) % 65536 :=
  ⟨by omega, c8_sequence_amended.1 0 (by omega) 5⟩

/-- C9 (counterexample): `decode_bcd` on the single byte `0xAB` yields the
string `"1011"`: the masked nibbles 10 and 11 are rendered by `str(int)` as
two characters each, so this byte contributes four digit characters, not
two. -/
theorem c9_decode_bcd_counterexample :
    decode_bcd [0xAB] = "1011" ∧ (decode_bcd [0xAB]).length = 4 ∧
      (4 : Nat) ≠ 2 * ([0xAB] : List Nat).length := by
  refine ⟨rfl, rfl, by decide⟩

theorem repr_nibble_digits (v : Nat) (h : v ≤ 15) :
    (Nat.repr v).data.all (fun c => c.isDigit) = true := by
  interval_cases v <;> decide

theorem repr_digit_length (v : Nat) (h : v ≤ 9) : (Nat.repr v).length = 1 := by
  interval_cases v <;> decide

/-- C9 (amended): `decode_bcd` never fails and always returns a string of
decimal digit characters, and each input byte contributes exactly two digit
characters *provided both its nibbles are at most 9*; a nibble above 9 is
rendered as the two-character decimal numeral of its masked value. -/
theorem c9_decode_bcd_amended :
    (∀ bs : List Nat, (decode_bcd bs).data.all (fun c => c.isDigit) = true) ∧
    (∀ bs : List Nat,
      (∀ b ∈ bs, (b >>> 4) &&& 0x0F ≤ 9 ∧ b &&& 0x0F ≤ 9) →
      (decode_bcd bs).length = 2 * bs.length) := by
  constructor
  · intro bs
    induction bs with
    | nil => decide
    | cons b rest ih =>
      rw [decode_bcd]
      simp only [String.data_append, List.all_append, ih, Bool.and_true]
      rw [Bool.and_eq_true]
      exact ⟨repr_nibble_digits _ (Nat.le_of_lt_succ
          (Nat.lt_succ_of_le (Nat.and_le_right))),
        repr_nibble_digits _ (Nat.le_of_lt_succ
          (Nat.lt_succ_of_le (Nat.and_le_right)))⟩
  · intro bs hb
    induction bs with
    | nil => decide
    | cons b rest ih =>
      have hhead := hb b (by simp)
      rw [decode_bcd]
      simp only [String.length_append]
      rw [repr_digit_length _ hhead.1, repr_digit_length _ hhead.2,
        ih (fun x hx => hb x (by simp [hx]))]
      simp only [List.length_cons]
      omega

/-- Witness for the amended C9 at the two-byte input `[0x12, 0x34]`. -/
theorem c9_decode_bcd_amended_witness :
    (∀ b ∈ ([0x12, 0x34] : List Nat),
      (b >>> 4) &&& 0x0F ≤ 9 ∧ b &&& 0x0F ≤ 9) ∧
    (decode_bcd [0x12, 0x34]).length = 2 * ([0x12, 0x34] : List Nat).length :=
  ⟨by decide, c9_decode_bcd_amended.2 [0x12, 0x34] (by decide)⟩

theorem packPairsStrict_even : ∀ l : List Nat, l.length % 2 = 0 →
    ∃ r, packPairsStrict l = some r ∧ r.length = l.length / 2
  | [] => fun _ => ⟨[], rfl, rfl⟩
  | [_] => fun hc => by simp at hc
  | a :: b :: t => fun hc => by
    obtain ⟨r, hr, hlen⟩ := packPairsStrict_even t (by
      simp only [List.length_cons] at hc ⊢
      omega)
    refine ⟨((a <<< 4) ||| b) :: r, by simp [packPairsStrict, hr], ?_⟩
    simp only [List.length_cons, hlen]
    omega

theorem packPairsStrict_odd : ∀ l : List Nat, l.length % 2 = 1 →
    packPairsStrict l = none
  | [] => fun hc => by simp at hc
  | [_] => fun _ => rfl
  | a :: b :: t => fun hc => by
    rw [packPairsStrict, packPairsStrict_odd t (by
      simp only [List.length_cons] at hc ⊢
      omega)]
    rfl

/-- C10 (counterexample): in the dc600_simulator variant, a 13-digit input
with requested width 6 bytes does not yield `ceil(13/2) = 7` bytes — the
packing loop reads `value[13]` and raises `IndexError`. -/
theorem c10_encode_bcd_counterexample :
    encode_bcd_sim (List.replicate 13 1) 6 = none ∧
      13 > 2 * 6 := by
  refine ⟨?_, by omega⟩
  decide

/-- C10 (amended): both `encode_bcd` variants pad short digit strings with
leading zeros to the requested width and never truncate. The
device-simulator variant (width counted in digits) yields `ceil(width/2)`
bytes for inputs of at most `width` digits and `ceil(len/2)` bytes for longer
inputs. The dc600_simulator variant (width counted in bytes) yields exactly
`width` bytes iff the input has at most `2*width` digits; an over-long input
of even length yields `len/2` bytes, but an over-long input of odd length
raises `IndexError` instead of yielding `ceil(len/2)` bytes. -/
theorem c10_encode_bcd_amended :
    (∀ s : List Nat, ∀ td, s.length ≤ td →
      (encode_bcd s td).length = (td + 1) / 2) ∧
    (∀ s : List Nat, ∀ td, td < s.length →
      (encode_bcd s td).length = (s.length + 1) / 2) ∧
    (∀ s : List Nat, ∀ w, s.length ≤ 2 * w →
      ∃ l, encode_bcd_sim s w = some l ∧ l.length = w) ∧
    (∀ s : List Nat, ∀ w, 2 * w < s.length → s.length % 2 = 0 →
      ∃ l, encode_bcd_sim s w = some l ∧ l.length = s.length / 2) ∧
    (∀ s : List Nat, ∀ w, 2 * w < s.length → s.length % 2 = 1 →
      encode_bcd_sim s w = none) := by
  refine ⟨?_, ?_, ?_, ?_, ?_⟩
  · intro s td h
    rw [encode_bcd_length]
    omega
  · intro s td h
    rw [encode_bcd_length]
    omega
  · intro s w h
    have hz : (zfill s (2 * w)).length = 2 * w := by
      rw [zfill_length]; omega
    obtain ⟨r, hr, hlen⟩ := packPairsStrict_even (zfill s (2 * w)) (by omega)
    exact ⟨r, hr, by omega⟩
  · intro s w h heven
    have hz : (zfill s (2 * w)).length = s.length := by
      rw [zfill_length]; omega
    obtain ⟨r, hr, hlen⟩ := packPairsStrict_even (zfill s (2 * w)) (by omega)
    exact ⟨r, hr, by omega⟩
  · intro s w h hodd
    have hz : (zfill s (2 * w)).length = s.length := by
      rw [zfill_length]; omega
    exact packPairsStrict_odd (zfill s (2 * w)) (by omega)

/-- Witness for the amended C10: a 12-digit device id packs to exactly 6
bytes in both variants, and a 14-digit input yields 7 bytes. -/
theorem c10_encode_bcd_amended_witness :
    (List.replicate 12 9 : List Nat).length ≤ 12 ∧
      (encode_bcd (List.replicate 12 9) 12).length = (12 + 1) / 2 ∧
    12 < (List.replicate 14 9 : List Nat).length ∧
      (encode_bcd (List.replicate 14 9) 12).length =
        ((List.replicate 14 9 : List Nat).length + 1) / 2 :=
  ⟨by decide, c10_encode_bcd_amended.1 (List.replicate 12 9) 12 (by decide),
    by decide, c10_encode_bcd_amended.2.1 (List.replicate 14 9) 12
      (by decide)⟩

end DC600
